import Mathlib

set_option autoImplicit false

/-!
Verification of the tool-dispatch and parameter-serialization layer of
ollama-rs, shallowly embedded from
src/ollama-rs/src/generation/tools/mod.rs and
src/ollama-rs/src/generation/parameters.rs.
-/

/-- Model of serde_json::Value restricted to what the code manipulates:
null, booleans, integers (the code only ever emits serialize_i8 values),
strings, arrays, and objects as association lists of key/value entries. -/
inductive JsonValue where
  | null : JsonValue
  | bool : Bool → JsonValue
  | num : Int → JsonValue
  | str : String → JsonValue
  | arr : List JsonValue → JsonValue
  | obj : List (String × JsonValue) → JsonValue

/-- Lookup of a key in an object map, first entry wins, mirroring
serde_json Map get. -/
def mapLookup : List (String × JsonValue) → String → Option JsonValue
  | [], _ => none
  | (k, v) :: rest, key => if k = key then some v else mapLookup rest key

/-- Removal of every entry with the given key, mirroring serde_json Map
remove (a serde_json map holds each key at most once, so removing all
occurrences agrees with it there). -/
def mapRemoveKey : List (String × JsonValue) → String → List (String × JsonValue)
  | [], _ => []
  | (k1, v) :: rest, k =>
    if k1 = k then mapRemoveKey rest k else (k1, v) :: mapRemoveKey rest k

/-- Insertion of a key, overwriting any existing entry for it, mirroring
serde_json Map insert. -/
def mapInsert (m : List (String × JsonValue)) (k : String) (v : JsonValue) :
    List (String × JsonValue) :=
  mapRemoveKey m k ++ [(k, v)]

/-- Model of TimeUnit from parameters.rs. -/
inductive TimeUnit where
  | Seconds : TimeUnit
  | Minutes : TimeUnit
  | Hours : TimeUnit
deriving DecidableEq

/-- TimeUnit::to_symbol from parameters.rs. -/
def TimeUnit.to_symbol : TimeUnit → String
  | .Seconds => "s"
  | .Minutes => "m"
  | .Hours => "hr"

/-- Model of KeepAlive from parameters.rs; the u64 time field is modelled
as Nat (its to_string rendering is value-faithful either way). -/
inductive KeepAlive where
  | Indefinitely : KeepAlive
  | UnloadOnCompletion : KeepAlive
  | Until : Nat → TimeUnit → KeepAlive
deriving DecidableEq

/-- The Serialize impl for KeepAlive from parameters.rs: Indefinitely is
serialize_i8 of -1, UnloadOnCompletion is serialize_i8 of 0, and Until
pushes the decimal rendering of time followed by the unit symbol into a
string. -/
def KeepAlive.serialize : KeepAlive → JsonValue
  | .Indefinitely => .num (-1)
  | .UnloadOnCompletion => .num 0
  | .Until time unit => .str (Nat.repr time ++ unit.to_symbol)

/-- Model of JsonStructure from parameters.rs; it wraps the JSON form of
the schemars RootSchema it holds (the value serde_json::to_value produces
for that schema). -/
structure JsonStructure where
  schema : JsonValue

/-- The Serialize impl for JsonStructure from parameters.rs: take the JSON
form of the wrapped schema, require it to be an object, remove the
definitions entry if present and reinsert its value under the key $defs,
then emit the resulting map. -/
def JsonStructure.serialize (s : JsonStructure) : Except String JsonValue :=
  match s.schema with
  | .obj m =>
    match mapLookup m "definitions" with
    | some d => .ok (.obj (mapInsert (mapRemoveKey m "definitions") "$defs" d))
    | none => .ok (.obj m)
  | _ => .error "Schema root must be an object"

/-- Model of FormatType from parameters.rs. -/
inductive FormatType where
  | Json : FormatType
  | StructuredJson : JsonStructure → FormatType

/-- The Serialize impl for FormatType from parameters.rs: the Json variant
serializes the literal string json, the StructuredJson variant delegates
to the JsonStructure serializer. -/
def FormatType.serialize : FormatType → Except String JsonValue
  | .Json => .ok (.str "json")
  | .StructuredJson s => s.serialize

/-- Entries of the object produced by the JsonStructure serializer on an
object input, written out for use in specification statements. -/
def jsonStructureEntries (m : List (String × JsonValue)) : List (String × JsonValue) :=
  match mapLookup m "definitions" with
  | some d => mapInsert (mapRemoveKey m "definitions") "$defs" d
  | none => m

/-- Hex digit characters as serde_json writes them in unicode escapes
(lowercase). -/
def hexDigitChar (n : Nat) : Char :=
  if n < 10 then Char.ofNat (48 + n) else Char.ofNat (87 + n)

/-- Escape of a single character inside a JSON string literal, as
serde_json writes it. -/
def escapeChar (c : Char) : String :=
  if c = '"' then "\\\""
  else if c = '\\' then "\\\\"
  else if c.toNat = 8 then "\\b"
  else if c.toNat = 9 then "\\t"
  else if c.toNat = 10 then "\\n"
  else if c.toNat = 12 then "\\f"
  else if c.toNat = 13 then "\\r"
  else if c.toNat < 32 then
    String.mk ['\\', 'u', '0', '0', hexDigitChar (c.toNat / 16), hexDigitChar (c.toNat % 16)]
  else String.singleton c

/-- Model of serde_json::to_string applied to a Rust String: the JSON
string literal, quotes included. -/
def encodeJsonString (s : String) : String :=
  "\"" ++ String.join (s.data.map escapeChar) ++ "\""

/-- Modelled from the spec: the dispatch error type. The type
crate::error::ToolCallError lives outside src/; only its UnknownToolName
variant appears literally in the dispatch code of tools/mod.rs. The spec
taxonomy gives UnknownToolName, an argument-decode failure wrapping the
underlying decode problem, and an execution failure wrapping the
capability failure; the wrapped causes are modelled as strings. -/
inductive ToolCallError where
  | UnknownToolName : ToolCallError
  | ArgumentDecodeFailed : String → ToolCallError
  | ExecutionFailed : String → ToolCallError
deriving DecidableEq

/-- Model of ToolCallFunction from tools/mod.rs. -/
structure ToolCallFunction where
  name : String
  arguments : JsonValue

/-- Model of a type implementing the Tool trait from tools/mod.rs: the
static name and description, the serde decoding of Params from a JSON
value, the async call operation (its boxed error erased to a string
cause), and the JSON form of the draft07 inline-subschemas root schema
that schemars generates for Params. -/
structure Tool (P : Type) where
  name : String
  description : String
  decodeParams : JsonValue → Except String P
  call : P → Except String String
  paramsSchema : JsonValue

/-- Model of ToolType from tools/mod.rs; its one variant serializes to
the string function. -/
inductive ToolType where
  | Function : ToolType
deriving DecidableEq

/-- Model of ToolFunctionInfo from tools/mod.rs; parameters holds the
JSON form of the RootSchema. -/
structure ToolFunctionInfo where
  name : String
  description : String
  parameters : JsonValue

/-- Model of ToolInfo from tools/mod.rs. -/
structure ToolInfo where
  tool_type : ToolType
  function : ToolFunctionInfo

/-- ToolInfo::new from tools/mod.rs: tool type Function, and the function
record built from the static name, the static description, and the
draft07 inline-subschemas root schema of Params (carried by the Tool
model). -/
def ToolInfo.new {P : Type} (t : Tool P) : ToolInfo :=
  { tool_type := .Function,
    function :=
      { name := t.name, description := t.description, parameters := t.paramsSchema } }

/-- Model of the family of ToolGroup impls from tools/mod.rs: the unit
impl, the impl for a single Tool, and the impl for a pair composing two
groups. -/
inductive ToolGroup : Type 1 where
  | unit : ToolGroup
  | tool : {P : Type} → Tool P → ToolGroup
  | pair : ToolGroup → ToolGroup → ToolGroup

/-- ToolGroup::tool_info from tools/mod.rs, the output vector passed
explicitly: the unit impl pushes nothing, a tool pushes its ToolInfo, a
pair runs the left side then the right side on the same vector. -/
def ToolGroup.tool_info : ToolGroup → List ToolInfo → List ToolInfo
  | .unit, out => out
  | .tool t, out => out ++ [ToolInfo.new t]
  | .pair a b, out => ToolGroup.tool_info b (ToolGroup.tool_info a out)

/-- ToolGroup::call from tools/mod.rs: the unit impl answers
UnknownToolName; a tool compares the call name with its static name and
on a match decodes the arguments (a failure becoming the argument-decode
error through the question-mark conversion) and runs the tool (a failure
becoming the execution error), serializing the resulting String with
serde_json::to_string; a pair runs the left side and falls through to
the right side exactly on UnknownToolName. -/
def ToolGroup.call : ToolGroup → ToolCallFunction → Except ToolCallError String
  | .unit, _ => .error .UnknownToolName
  | .tool t, tc =>
    if tc.name = t.name then
      match t.decodeParams tc.arguments with
      | .error e => .error (.ArgumentDecodeFailed e)
      | .ok p =>
        match t.call p with
        | .error e => .error (.ExecutionFailed e)
        | .ok s => .ok (encodeJsonString s)
    else .error .UnknownToolName
  | .pair a b, tc =>
    match a.call tc with
    | .ok x => .ok x
    | .error .UnknownToolName => b.call tc
    | .error e => .error e

/-- Static names held by a group, in composition order, for stating the
no-match claims. -/
def ToolGroup.names : ToolGroup → List String
  | .unit => []
  | .tool t => [t.name]
  | .pair a b => a.names ++ b.names

/-- Descriptors held by a group, in composition order, for stating the
enumeration claim. -/
def ToolGroup.descriptors : ToolGroup → List ToolInfo
  | .unit => []
  | .tool t => [ToolInfo.new t]
  | .pair a b => a.descriptors ++ b.descriptors

/-- Concrete example tool whose call answers the text hi, for concrete
evaluations. -/
def getTimeTool : Tool Unit :=
  { name := "get_time", description := "gets the time",
    decodeParams := fun v => match v with
      | .obj [] => .ok ()
      | _ => .error "invalid args",
    call := fun _ => .ok "hi",
    paramsSchema := .obj [("type", .str "object")] }

/-- Concrete example tool whose parameters decode only from a number, for
concrete evaluations of decode failures. -/
def strictTool : Tool Nat :=
  { name := "get_weather", description := "gets the weather",
    decodeParams := fun v => match v with
      | .num n => .ok n.toNat
      | _ => .error "expected number",
    call := fun _ => .ok "sunny",
    paramsSchema := .obj [("type", .str "object")] }

/-- Concrete incoming call naming get_time with empty object arguments. -/
def getTimeCall : ToolCallFunction := { name := "get_time", arguments := .obj [] }

/-- Concrete incoming call naming get_weather with arguments that do not
decode as a number. -/
def getWeatherCall : ToolCallFunction := { name := "get_weather", arguments := .obj [] }

/-- Concrete incoming call naming a tool no example group holds. -/
def unknownCall : ToolCallFunction := { name := "unknown", arguments := .obj [] }

/-- The serde serialization of ToolType from tools/mod.rs: the Function
variant is renamed to the string function. -/
def ToolType.serializeValue : ToolType → JsonValue
  | .Function => .str "function"

/-- The serde serialization of ToolFunctionInfo from tools/mod.rs: an
object holding name, description and the parameters schema. -/
def ToolFunctionInfo.serializeValue (f : ToolFunctionInfo) : JsonValue :=
  .obj [("name", .str f.name), ("description", .str f.description),
        ("parameters", f.parameters)]

/-- The serde serialization of ToolInfo from tools/mod.rs: an object
holding the tool type under the renamed key type, then the function
record. -/
def ToolInfo.serializeValue (ti : ToolInfo) : JsonValue :=
  .obj [("type", ti.tool_type.serializeValue), ("function", ti.function.serializeValue)]

/-- Modelled from the spec: parameter shapes as a small structural type
language, standing in for the statically known data shapes whose schemars
derivation is external library code not under src/. -/
inductive Shape where
  | string : Shape
  | integer : Shape
  | boolean : Shape
  | array : Shape → Shape
  | object : List (String × Shape) → Shape

mutual

/-- Modelled from the spec: the schema document the draft07 generator
with inline_subschemas produces for a shape; every internal
cross-reference is resolved and inlined in place, so the emitted tree
holds no reference-indirection nodes and no shared sub-definition
container. -/
def Shape.project : Shape → JsonValue
  | .string => .obj [("type", .str "string")]
  | .integer => .obj [("type", .str "integer")]
  | .boolean => .obj [("type", .str "boolean")]
  | .array s => .obj [("type", .str "array"), ("items", s.project)]
  | .object fields =>
    .obj [("type", .str "object"), ("properties", .obj (Shape.projectFields fields))]

/-- Projection of the named fields of an object shape. -/
def Shape.projectFields : List (String × Shape) → List (String × JsonValue)
  | [] => []
  | (k, s) :: rest => (k, Shape.project s) :: Shape.projectFields rest

end

mutual

/-- Check that no object node anywhere in a JSON tree holds an entry with
the given key. -/
def JsonValue.keyFree : JsonValue → String → Bool
  | .obj m, k => keyFreeEntries m k
  | .arr xs, k => keyFreeList xs k
  | _, _ => true

/-- keyFree over the entries of an object node. -/
def keyFreeEntries : List (String × JsonValue) → String → Bool
  | [], _ => true
  | (k1, v) :: rest, k => (k1 != k) && JsonValue.keyFree v k && keyFreeEntries rest k

/-- keyFree over the elements of an array node. -/
def keyFreeList : List JsonValue → String → Bool
  | [], _ => true
  | v :: rest, k => JsonValue.keyFree v k && keyFreeList rest k

end

mutual

/-- Field names appearing anywhere in a shape all differ from the given
string. -/
def Shape.fieldsAvoid : Shape → String → Bool
  | .string, _ => true
  | .integer, _ => true
  | .boolean, _ => true
  | .array s, k => s.fieldsAvoid k
  | .object fields, k => fieldsAvoidEntries fields k

/-- fieldsAvoid over the named fields of an object shape. -/
def fieldsAvoidEntries : List (String × Shape) → String → Bool
  | [], _ => true
  | (k1, s) :: rest, k => (k1 != k) && s.fieldsAvoid k && fieldsAvoidEntries rest k

end

/-- Concrete shape with one string field, for the descriptor witness. -/
def cityShape : Shape := .object [("city", .string)]

/-- Concrete example tool whose parameters schema is the projection of
cityShape. -/
def cityTool : Tool Unit :=
  { name := "lookup_city", description := "looks up a city",
    decodeParams := fun _ => .ok (),
    call := fun _ => .ok "ok",
    paramsSchema := cityShape.project }

/-- Lookup distributes over append, first list wins. -/
theorem mapLookup_append (m1 m2 : List (String × JsonValue)) (k : String) :
    mapLookup (m1 ++ m2) k = (mapLookup m1 k).or (mapLookup m2 k) := by
  induction m1 with
  | nil => simp [mapLookup]
  | cons p rest ih =>
    obtain ⟨k1, v1⟩ := p
    by_cases h : k1 = k <;> simp [mapLookup, h, ih]

/-- Removing a key makes its lookup come out empty. -/
theorem mapLookup_removeKey_self (m : List (String × JsonValue)) (k : String) :
    mapLookup (mapRemoveKey m k) k = none := by
  induction m with
  | nil => rfl
  | cons p rest ih =>
    obtain ⟨k1, v1⟩ := p
    by_cases h : k1 = k <;> simp [mapRemoveKey, mapLookup, h, ih]

/-- Removing one key leaves the lookup of every other key unchanged. -/
theorem mapLookup_removeKey_ne (m : List (String × JsonValue)) (k k' : String)
    (h : k' ≠ k) : mapLookup (mapRemoveKey m k) k' = mapLookup m k' := by
  induction m with
  | nil => rfl
  | cons p rest ih =>
    obtain ⟨k1, v1⟩ := p
    by_cases h1 : k1 = k
    · have h2 : ¬ k1 = k' := by rw [h1]; exact fun hh => h hh.symm
      have h3 : ¬ k = k' := fun hh => h hh.symm
      simp [mapRemoveKey, mapLookup, h1, h2, h3, ih]
    · by_cases h2 : k1 = k'
      · simp [mapRemoveKey, mapLookup, h1, h2, h]
      · simp [mapRemoveKey, mapLookup, h1, h2, ih]

/-- C8: keep-alive serialization maps Indefinitely to the integer -1,
UnloadOnCompletion to the integer 0, and Until to the string of the decimal
digits of the magnitude followed by the unit symbol, with symbols s, m, hr. -/
theorem C8_keepalive_serialization :
    KeepAlive.serialize .Indefinitely = .num (-1) ∧
    KeepAlive.serialize .UnloadOnCompletion = .num 0 ∧
    (∀ (t : Nat) (u : TimeUnit),
      KeepAlive.serialize (.Until t u) = .str (Nat.repr t ++ u.to_symbol)) ∧
    TimeUnit.to_symbol .Seconds = "s" ∧
    TimeUnit.to_symbol .Minutes = "m" ∧
    TimeUnit.to_symbol .Hours = "hr" :=
  ⟨rfl, rfl, fun _ _ => rfl, rfl, rfl, rfl⟩

/-- C10: a zero magnitude is accepted: Until with time 0 serializes to the
string 0 followed by the unit symbol (for example the string 0s), a
different wire value from the integer 0 of UnloadOnCompletion. -/
theorem C10_zero_duration (u : TimeUnit) :
    KeepAlive.serialize (.Until 0 u) = .str ("0" ++ u.to_symbol) ∧
    KeepAlive.serialize (.Until 0 u) ≠ KeepAlive.serialize .UnloadOnCompletion ∧
    KeepAlive.serialize (.Until 0 .Seconds) = .str "0s" := by
  refine ⟨rfl, ?_, rfl⟩
  cases u <;> simp [KeepAlive.serialize]

/-- C6: serialization of a JsonStructure fails exactly when the JSON form
of the wrapped schema is not an object; on an object it yields that object
with the definitions entry removed and its value reinserted under $defs,
every other key unchanged, and no definitions key in the output. -/
theorem C6_json_structure_serialize (m : List (String × JsonValue)) :
    (∀ v : JsonValue, (∀ mm, v ≠ .obj mm) → ∃ e, JsonStructure.serialize ⟨v⟩ = .error e) ∧
    JsonStructure.serialize ⟨.obj m⟩ = .ok (.obj (jsonStructureEntries m)) ∧
    mapLookup (jsonStructureEntries m) "definitions" = none ∧
    mapLookup (jsonStructureEntries m) "$defs" =
      (mapLookup m "definitions").or (mapLookup m "$defs") ∧
    (∀ k, k ≠ "definitions" → k ≠ "$defs" →
      mapLookup (jsonStructureEntries m) k = mapLookup m k) := by
  refine ⟨?_, ?_, ?_, ?_, ?_⟩
  · intro v hv
    cases v with
    | obj mm => exact absurd rfl (hv mm)
    | null => exact ⟨_, rfl⟩
    | bool b => exact ⟨_, rfl⟩
    | num n => exact ⟨_, rfl⟩
    | str s => exact ⟨_, rfl⟩
    | arr xs => exact ⟨_, rfl⟩
  · simp only [JsonStructure.serialize, jsonStructureEntries]
    cases mapLookup m "definitions" <;> rfl
  · unfold jsonStructureEntries
    cases h : mapLookup m "definitions" with
    | none => exact h
    | some d =>
      simp only [mapInsert]
      rw [mapLookup_append]
      rw [mapLookup_removeKey_ne _ _ _ (by decide), mapLookup_removeKey_self]
      simp [mapLookup]
  · unfold jsonStructureEntries
    cases h : mapLookup m "definitions" with
    | none => rfl
    | some d =>
      simp only [mapInsert]
      rw [mapLookup_append, mapLookup_removeKey_self]
      simp [mapLookup]
  · intro k hk1 hk2
    unfold jsonStructureEntries
    cases h : mapLookup m "definitions" with
    | none => rfl
    | some d =>
      simp only [mapInsert]
      rw [mapLookup_append]
      rw [mapLookup_removeKey_ne _ _ _ hk2, mapLookup_removeKey_ne _ _ _ hk1]
      simp [mapLookup, Ne.symm hk2]

/-- Witness for C6 at the concrete schema object with a definitions entry
and a title entry. -/
theorem C6_witness :
    mapLookup (jsonStructureEntries
        [("definitions", JsonValue.null), ("title", JsonValue.str "T")]) "title" =
      mapLookup [("definitions", JsonValue.null), ("title", JsonValue.str "T")] "title" ∧
    mapLookup (jsonStructureEntries
        [("definitions", JsonValue.null), ("title", JsonValue.str "T")]) "definitions" = none :=
  ⟨(C6_json_structure_serialize
      [("definitions", JsonValue.null), ("title", JsonValue.str "T")]).2.2.2.2
      "title" (by decide) (by decide),
    (C6_json_structure_serialize
      [("definitions", JsonValue.null), ("title", JsonValue.str "T")]).2.2.1⟩

/-- C9: response-format serialization maps the Json variant to the literal
string json, and the StructuredJson variant holding a schema object that
satisfies the schema-document invariant (sub-definitions already carried
under $defs, never under definitions) to that object itself; the
StructuredJson variant never serializes to a string. -/
theorem C9_format_type_serialize :
    FormatType.serialize .Json = .ok (.str "json") ∧
    (∀ m, mapLookup m "definitions" = none →
      FormatType.serialize (.StructuredJson ⟨.obj m⟩) = .ok (.obj m)) ∧
    (∀ (js : JsonStructure) (s : String),
      FormatType.serialize (.StructuredJson js) ≠ .ok (.str s)) := by
  refine ⟨rfl, ?_, ?_⟩
  · intro m h
    simp only [FormatType.serialize, JsonStructure.serialize, h]
  · intro js s
    obtain ⟨v⟩ := js
    cases v with
    | obj m =>
      simp only [FormatType.serialize, JsonStructure.serialize]
      cases mapLookup m "definitions" <;> simp
    | null => simp [FormatType.serialize, JsonStructure.serialize]
    | bool b => simp [FormatType.serialize, JsonStructure.serialize]
    | num n => simp [FormatType.serialize, JsonStructure.serialize]
    | str s2 => simp [FormatType.serialize, JsonStructure.serialize]
    | arr xs => simp [FormatType.serialize, JsonStructure.serialize]

/-- Witness for C9 at a concrete schema object without a definitions key. -/
theorem C9_witness :
    FormatType.serialize (.StructuredJson ⟨.obj [("type", JsonValue.str "object")]⟩) =
      .ok (.obj [("type", JsonValue.str "object")]) :=
  C9_format_type_serialize.2.1 [("type", JsonValue.str "object")] rfl

/-- Unfolding of dispatch on a composed pair. -/
theorem pair_call_eq (a b : ToolGroup) (c : ToolCallFunction) :
    (ToolGroup.pair a b).call c =
      match a.call c with
      | .ok x => .ok x
      | .error .UnknownToolName => b.call c
      | .error e => .error e := rfl

/-- Running tool_info appends exactly the descriptors of the group. -/
theorem tool_info_eq_append (r : ToolGroup) (out : List ToolInfo) :
    r.tool_info out = out ++ r.descriptors := by
  induction r generalizing out with
  | unit => simp [ToolGroup.tool_info, ToolGroup.descriptors]
  | tool t => simp [ToolGroup.tool_info, ToolGroup.descriptors]
  | pair a b iha ihb =>
    simp [ToolGroup.tool_info, ToolGroup.descriptors, iha, ihb, List.append_assoc]

/-- C1: dispatch on a composed pair runs the left side first; a success is
returned as is, UnknownToolName falls through to exactly the right side
dispatch, and any other error is returned unchanged. -/
theorem C1_pair_dispatch (a b : ToolGroup) (c : ToolCallFunction) :
    (∀ x, a.call c = .ok x → (ToolGroup.pair a b).call c = .ok x) ∧
    (a.call c = .error .UnknownToolName → (ToolGroup.pair a b).call c = b.call c) ∧
    (∀ e, e ≠ ToolCallError.UnknownToolName → a.call c = .error e →
      (ToolGroup.pair a b).call c = .error e) := by
  refine ⟨?_, ?_, ?_⟩
  · intro x h
    rw [pair_call_eq, h]
  · intro h
    rw [pair_call_eq, h]
  · intro e he h
    rw [pair_call_eq, h]
    cases e with
    | UnknownToolName => exact absurd rfl he
    | ArgumentDecodeFailed s => rfl
    | ExecutionFailed s => rfl

/-- Witness for C1: the left side does not hold the called name, so the
composed dispatch equals the right side dispatch. -/
theorem C1_witness :
    (ToolGroup.pair (.tool getTimeTool) (.tool strictTool)).call getWeatherCall =
      ToolGroup.call (.tool strictTool) getWeatherCall :=
  (C1_pair_dispatch (.tool getTimeTool) (.tool strictTool) getWeatherCall).2.1 rfl

/-- C2 as stated fails on the code: dispatch wraps the textual result of
the call operation in serde_json::to_string, so the returned string is
the JSON quoted form of the text, not the text itself; at the concrete
get_time call the tool answers hi but dispatch returns the quoted JSON
literal. -/
theorem C2_counterexample :
    getTimeCall.name = getTimeTool.name ∧
    getTimeTool.decodeParams getTimeCall.arguments = .ok () ∧
    getTimeTool.call () = .ok "hi" ∧
    ToolGroup.call (.tool getTimeTool) getTimeCall = .ok "\"hi\"" ∧
    ToolGroup.call (.tool getTimeTool) getTimeCall ≠ .ok "hi" := by
  refine ⟨rfl, rfl, rfl, rfl, ?_⟩
  intro h
  have h1 : (Except.ok ("\"hi\"" : String) : Except ToolCallError String) = .ok "hi" :=
    (rfl : ToolGroup.call (.tool getTimeTool) getTimeCall = .ok "\"hi\"").symm.trans h
  injection h1 with h2
  exact absurd h2 (by decide)

/-- C2 (amended): when the call name equals the tool name, the arguments
decode to p, and the call operation succeeds with the text s, dispatch
returns the serde_json string serialization of s (the JSON quoted form of
the text). -/
theorem C2_amended_dispatch_success {P : Type} (t : Tool P) (c : ToolCallFunction)
    (p : P) (s : String) (h1 : c.name = t.name)
    (h2 : t.decodeParams c.arguments = .ok p) (h3 : t.call p = .ok s) :
    ToolGroup.call (.tool t) c = .ok (encodeJsonString s) := by
  simp [ToolGroup.call, h1, h2, h3]

/-- Witness for the amended C2 at the concrete get_time call. -/
theorem C2_amended_witness :
    ToolGroup.call (.tool getTimeTool) getTimeCall = .ok (encodeJsonString "hi") :=
  C2_amended_dispatch_success getTimeTool getTimeCall () "hi" rfl rfl rfl

/-- C3: when the call name equals the tool name and the arguments fail to
decode, dispatch answers the argument-decode error wrapping the cause,
never UnknownToolName, and composing any group to the right never gets
tried. -/
theorem C3_decode_failure {P : Type} (t : Tool P) (c : ToolCallFunction) (e : String)
    (h1 : c.name = t.name) (h2 : t.decodeParams c.arguments = .error e) :
    ToolGroup.call (.tool t) c = .error (.ArgumentDecodeFailed e) ∧
    ToolGroup.call (.tool t) c ≠ .error .UnknownToolName ∧
    (∀ b : ToolGroup,
      (ToolGroup.pair (.tool t) b).call c = .error (.ArgumentDecodeFailed e)) := by
  have hd : ToolGroup.call (.tool t) c = .error (.ArgumentDecodeFailed e) := by
    simp [ToolGroup.call, h1, h2]
  refine ⟨hd, ?_, ?_⟩
  · rw [hd]
    intro h
    injection h with h3
    exact ToolCallError.noConfusion h3
  · intro b
    rw [pair_call_eq, hd]

/-- Witness for C3: the get_weather tool rejects the arguments and the
composed registry does not try the differently named right side. -/
theorem C3_witness :
    ToolGroup.call (.tool strictTool) getWeatherCall =
      .error (.ArgumentDecodeFailed "expected number") ∧
    (ToolGroup.pair (.tool strictTool) (.tool getTimeTool)).call getWeatherCall =
      .error (.ArgumentDecodeFailed "expected number") :=
  ⟨(C3_decode_failure strictTool getWeatherCall "expected number" rfl rfl).1,
   (C3_decode_failure strictTool getWeatherCall "expected number" rfl rfl).2.2
     (.tool getTimeTool)⟩

/-- C4: dispatch of a call whose name equals no held static name answers
UnknownToolName, for the unit group and every composition. -/
theorem C4_unknown_tool_name (r : ToolGroup) (c : ToolCallFunction)
    (h : c.name ∉ r.names) : r.call c = .error .UnknownToolName := by
  induction r with
  | unit => rfl
  | tool t =>
    have hne : c.name ≠ t.name := by
      simp only [ToolGroup.names, List.mem_singleton] at h
      exact h
    simp [ToolGroup.call, hne]
  | pair a b iha ihb =>
    simp only [ToolGroup.names, List.mem_append, not_or] at h
    rw [pair_call_eq, iha h.1, ihb h.2]

/-- Witness for C4 at a composition holding the unit group and two tools,
called with an unheld name. -/
theorem C4_witness :
    (ToolGroup.pair .unit
      (ToolGroup.pair (.tool getTimeTool) (.tool strictTool))).call unknownCall =
      .error .UnknownToolName :=
  C4_unknown_tool_name _ unknownCall (by decide)

/-- C5: tool_info appends exactly the descriptors of the group in
composition order: the unit group appends nothing, a tool appends its one
descriptor, a pair appends the left descriptors then the right ones, and
the appended sequence depends only on the group, so two runs append
identical sequences. -/
theorem C5_tool_info_appends_descriptors :
    (∀ out : List ToolInfo, ToolGroup.unit.tool_info out = out) ∧
    (∀ (P : Type) (t : Tool P) (out : List ToolInfo),
      (ToolGroup.tool t).tool_info out = out ++ [ToolInfo.new t]) ∧
    (∀ (a b : ToolGroup) (out : List ToolInfo),
      (ToolGroup.pair a b).tool_info out = out ++ (a.descriptors ++ b.descriptors)) ∧
    (∀ (r : ToolGroup) (out : List ToolInfo), r.tool_info out = out ++ r.descriptors) := by
  refine ⟨fun out => rfl, fun P t out => rfl, ?_, tool_info_eq_append⟩
  intro a b out
  have h := tool_info_eq_append (ToolGroup.pair a b) out
  simpa [ToolGroup.descriptors] using h

mutual

/-- No object node of a projected schema holds an entry with a key the
generator never emits itself and the shape field names avoid. -/
theorem project_keyFree : ∀ (s : Shape) (k : String), "type" ≠ k → "items" ≠ k →
    "properties" ≠ k → s.fieldsAvoid k = true → JsonValue.keyFree s.project k = true
  | .string, k, h1, _, _, _ => by
    simp [Shape.project, JsonValue.keyFree, keyFreeEntries, h1]
  | .integer, k, h1, _, _, _ => by
    simp [Shape.project, JsonValue.keyFree, keyFreeEntries, h1]
  | .boolean, k, h1, _, _, _ => by
    simp [Shape.project, JsonValue.keyFree, keyFreeEntries, h1]
  | .array s1, k, h1, h2, h3, hf => by
    have ih := project_keyFree s1 k h1 h2 h3 (by simpa [Shape.fieldsAvoid] using hf)
    simp [Shape.project, JsonValue.keyFree, keyFreeEntries, h1, h2, ih]
  | .object fields, k, h1, h2, h3, hf => by
    have ih := projectFields_keyFree fields k h1 h2 h3
      (by simpa [Shape.fieldsAvoid] using hf)
    simp [Shape.project, JsonValue.keyFree, keyFreeEntries, h1, h3, ih]

/-- keyFree for the projected fields of an object shape. -/
theorem projectFields_keyFree : ∀ (fs : List (String × Shape)) (k : String),
    "type" ≠ k → "items" ≠ k → "properties" ≠ k → fieldsAvoidEntries fs k = true →
    keyFreeEntries (Shape.projectFields fs) k = true
  | [], _, _, _, _, _ => rfl
  | (k1, s) :: rest, k, h1, h2, h3, hf => by
    simp only [fieldsAvoidEntries, Bool.and_eq_true] at hf
    have ih1 := project_keyFree s k h1 h2 h3 hf.1.2
    have ih2 := projectFields_keyFree rest k h1 h2 h3 hf.2
    simp [Shape.projectFields, keyFreeEntries, hf.1.1, ih1, ih2]

end

/-- C7: a descriptor built by ToolInfo::new serializes to the wire object
holding type function and a function object with the name, the
description and the parameters schema; the projected parameters schema
holds no $ref reference nodes anywhere and no definitions key anywhere,
shared sub-shapes having been inlined by the generator. -/
theorem C7_descriptor_wire_shape {P : Type} (t : Tool P) (sh : Shape)
    (hschema : t.paramsSchema = sh.project)
    (href : sh.fieldsAvoid "$ref" = true)
    (hdefs : sh.fieldsAvoid "definitions" = true) :
    ToolInfo.serializeValue (ToolInfo.new t) =
      .obj [("type", .str "function"),
            ("function", .obj [("name", .str t.name),
                               ("description", .str t.description),
                               ("parameters", sh.project)])] ∧
    JsonValue.keyFree sh.project "$ref" = true ∧
    JsonValue.keyFree sh.project "definitions" = true := by
  refine ⟨?_, ?_, ?_⟩
  · simp [ToolInfo.serializeValue, ToolInfo.new, ToolType.serializeValue,
      ToolFunctionInfo.serializeValue, hschema]
  · exact project_keyFree sh "$ref" (by decide) (by decide) (by decide) href
  · exact project_keyFree sh "definitions" (by decide) (by decide) (by decide) hdefs

/-- Witness for C7 at the concrete lookup_city tool and its one-field
shape. -/
theorem C7_witness :
    ToolInfo.serializeValue (ToolInfo.new cityTool) =
      .obj [("type", .str "function"),
            ("function", .obj [("name", .str "lookup_city"),
                               ("description", .str "looks up a city"),
                               ("parameters", cityShape.project)])] ∧
    JsonValue.keyFree cityShape.project "$ref" = true ∧
    JsonValue.keyFree cityShape.project "definitions" = true :=
  C7_descriptor_wire_shape cityTool cityShape rfl (by decide) (by decide)
